import Mathlib

/-!
# Verification of the aspen resource layer

Shallow embedding of `aspen/resources/negotiated_resource.py` and
`aspen/resources/json_resource.py`, plus theorems checking the
specification's claims about them.

Python strings are modelled as Lean `String`; `re.match` (which anchors a
pattern at the *start* of the string only, per Python semantics) is
modelled by explicit prefix-matching functions over the source patterns;
exceptions are modelled with `Except` / tagged error values carrying the
exact message text the code formats.
-/

namespace Aspen

/-! ## Character classes of the source regexes -/

/-- Character class `[_A-Za-z0-9]` of `callback_pattern` in
`json_resource.py`. -/
def isCallbackChar (c : Char) : Bool :=
  c = '_' || ('A' ≤ c && c ≤ 'Z') || ('a' ≤ c && c ≤ 'z') || ('0' ≤ c && c ≤ '9')

/-- Character class `[A-Za-z0-9.+-]` of `media_type_re` in
`negotiated_resource.py`. -/
def isMediaTypeChar (c : Char) : Bool :=
  ('A' ≤ c && c ≤ 'Z') || ('a' ≤ c && c ≤ 'z') || ('0' ≤ c && c ≤ '9')
    || c = '.' || c = '+' || c = '-'

/-- Character class `[a-z0-9.-]` of `renderer_re` in
`negotiated_resource.py`. -/
def isRendererChar (c : Char) : Bool :=
  ('a' ≤ c && c ≤ 'z') || ('0' ≤ c && c ≤ '9') || c = '.' || c = '-'

/-! ## `re.match` semantics of the three source patterns

Python's `pattern.match(s)` looks for the pattern at the beginning of `s`
and succeeds as soon as a prefix of `s` matches; it does not require the
whole string to match. -/

/-- `callback_pattern.match(s) is not None` for `r'[_A-Za-z0-9]+'`:
a match at the start exists iff the first character is in the class. -/
def callbackMatch (s : String) : Bool :=
  match s.data with
  | [] => false
  | c :: _ => isCallbackChar c

/-- `media_type_re.match(s) is not None` for
`r'[A-Za-z0-9.+-]+/[A-Za-z0-9.+-]+'`: a match at the start exists iff a
nonempty run of class characters is followed by `/` and at least one more
class character.  (Since `/` is not in the class, the greedy run is the
only candidate.) -/
def mediaTypeMatch (s : String) : Bool :=
  match s.data.dropWhile isMediaTypeChar with
  | '/' :: c :: _ => !(s.data.takeWhile isMediaTypeChar).isEmpty && isMediaTypeChar c
  | _ => false

/-- `renderer_re.match(s) is not None` for `r'#![a-z0-9.-]+'`: a match at
the start exists iff the string begins `#!` followed by at least one class
character. -/
def rendererMatch (s : String) : Bool :=
  match s.data with
  | '#' :: '!' :: c :: _ => isRendererChar c
  | _ => false

/-! ## Anchored (full-string) variants stated by the spec

The spec describes the patterns as anchored, `^...$`.  These definitions
follow the spec's words and are used only to compare the spec's reading
with the source's `re.match` behaviour. -/

/-- Modelled from the spec: full-string match of `^[_A-Za-z0-9]+$`. -/
def specCallbackFullMatch (s : String) : Bool :=
  !s.data.isEmpty && s.data.all isCallbackChar

/-- Modelled from the spec: full-string match of
`^[A-Za-z0-9.+-]+/[A-Za-z0-9.+-]+$`. -/
def specMediaTypeFullMatch (s : String) : Bool :=
  match s.data.dropWhile isMediaTypeChar with
  | '/' :: rest => !(s.data.takeWhile isMediaTypeChar).isEmpty
      && !rest.isEmpty && rest.all isMediaTypeChar
  | _ => false

/-- Modelled from the spec: full-string match of `^#![a-z0-9.-]+$`. -/
def specRendererFullMatch (s : String) : Bool :=
  match s.data with
  | '#' :: '!' :: rest => !rest.isEmpty && rest.all isRendererChar
  | _ => false

/-! ## Python string helpers used by the source -/

/-- Whitespace per Python's `str.split()` with no argument. -/
def isPySpace (c : Char) : Bool :=
  c = ' ' || c = '\t' || c = '\n' || c = '\r' || c = '\x0b' || c = '\x0c'

/-- Python `s.split()`: split on runs of whitespace, discarding empty
fields (so leading/trailing whitespace produces no empty tokens). -/
def pySplit (s : String) : List String :=
  ((s.data.splitOnP isPySpace).filter (fun l => !l.isEmpty)).map String.mk

/-- Python `s.strip(chars)`: remove leading and trailing characters that
belong to `cs`. -/
def pyStrip (s : String) (cs : List Char) : String :=
  String.mk ((((s.data.dropWhile cs.contains).reverse).dropWhile cs.contains).reverse)

/-- Split a character list at the first `'\n'`; `none` when there is no
newline. -/
def splitAtNewline : List Char → Option (List Char × List Char)
  | [] => none
  | c :: cs =>
    if c = '\n' then some ([], cs)
    else match splitAtNewline cs with
      | some (a, b) => some (c :: a, b)
      | none => none

/-- Split a page at its first newline, as
`page.split('\n', 1)` guarded by `'\n' in page` does in `compile_page`:
returns `(specline, raw)`, or `("", page)` when there is no newline. -/
def splitFirstNewline (page : String) : String × String :=
  match splitAtNewline page.data with
  | some (a, b) => (String.mk a, String.mk b)
  | none => ("", page)

/-! ## Errors raised by the negotiated-resource code

Each constructor tags one `raise` site of `negotiated_resource.py`;
`message` reproduces the exact text the code formats.
`unknownRenderer` is the one `ValueError`, all others are `SyntaxError`s. -/

inductive SpecErr where
  | emptySpecline : SpecErr
  | badPartCount (specline : String) : SpecErr
  | badMediaType (media_type specline : String) : SpecErr
  | badRenderer (renderer : String) : SpecErr
  | unknownRenderer (media_type renderer : String) : SpecErr
  | duplicateMediaType (media_type : String) : SpecErr
deriving Repr, DecidableEq

/-- The `pattern` attribute of `media_type_re`. -/
def mediaTypePattern : String := "[A-Za-z0-9.+-]+/[A-Za-z0-9.+-]+"

/-- The `pattern` attribute of `renderer_re`. -/
def rendererPattern : String := "#![a-z0-9.-]+"

/-- The message text each exception is raised with. -/
def SpecErr.message : SpecErr → String
  | .emptySpecline =>
      "Content pages in negotiated resources must have a specline."
  | .badPartCount specline =>
      "A negotiated resource specline must have one or two parts: "
        ++ "#!renderer media/type. Yours is: " ++ specline ++ "."
  | .badMediaType media_type specline =>
      "Malformed media type " ++ media_type ++ " in specline " ++ specline
        ++ ". It must match " ++ mediaTypePattern ++ "."
  | .badRenderer renderer =>
      "Malformed renderer " ++ renderer ++ ". It must match "
        ++ rendererPattern ++ "."
  | .unknownRenderer media_type renderer =>
      "Unknown renderer for " ++ media_type ++ ": " ++ renderer ++ "."
  | .duplicateMediaType media_type =>
      "Two content pages defined for " ++ media_type ++ "."

/-- `True` for the errors the code raises as `SyntaxError` (as opposed to
`ValueError`). -/
def SpecErr.isSyntaxError : SpecErr → Bool
  | .unknownRenderer _ _ => false
  | _ => true

/-! ## The specline parser

`F` stands for the opaque renderer factories stored in the website's
`renderer_factories` registry (externally owned, looked up read-only). -/

/-- The tail of `NegotiatedResource._parse_specline` after the parts have
been assigned: validate the media type, then hydrate and validate the
renderer (`_get_renderer_factory` inlined — its `renderer is not None`
test is always true on this path since the one-part case supplies the
default `"#!tornado"`).  Note both regex tests use `re.match`, i.e. the
prefix-matching functions above, and the `ValueError` message uses the
caller's unstripped `renderer` token. -/
def parseSpeclineParts {F : Type} (reg : String → Option F)
    (specline renderer media_type : String) : Except SpecErr (F × String) :=
  if mediaTypeMatch media_type = false then
    .error (.badMediaType media_type specline)
  else if rendererMatch renderer = false then
    .error (.badRenderer renderer)
  else
    match reg (renderer.drop 2) with
    | none => .error (.unknownRenderer media_type renderer)
    | some f => .ok (f, media_type)

/-- `NegotiatedResource._parse_specline`.  Empty speclines are rejected,
then the line is split on whitespace into one part (media type only, with
the hard-coded default renderer `#!tornado`) or two parts
(renderer, media type); any other part count is rejected.
`media_type.decode('US-ASCII')` is the identity in this model. -/
def parse_specline {F : Type} (reg : String → Option F) (specline : String) :
    Except SpecErr (F × String) :=
  if specline = "" then .error .emptySpecline
  else
    match pySplit specline with
    | [media_type] => parseSpeclineParts reg specline "#!tornado" media_type
    | [renderer, media_type] => parseSpeclineParts reg specline renderer media_type
    | _ => .error (.badPartCount specline)

/-! ## The negotiated resource -/

/-- Modelled from the spec: the page-break marker separating pages of a
Source File (`aspen.resources.PAGE_BREAK`, a module outside `src/`); the
`^L` in the source's docstring identifies it as the form-feed character. -/
def PAGE_BREAK : Char := '\x0c'

/-- The compile-time state of a `NegotiatedResource`.  `renderers` is the
media type → render function mapping and `available_types` the ordered
sequence of media types, exactly the two structures `__init__` creates.
`contentPages` models the slice `self.pages[2:]` that the parent class
(`dynamic_resource.py`, outside `src/`; modelled from the spec) fills with
`compile_page`'s return values in declaration order, so that
`self.pages[2]` is its head. -/
structure NegotiatedResource (F : Type) where
  fs : String
  renderers : List (String × F)
  available_types : List String
  contentPages : List (F × String)

/-- A freshly `__init__`-ed resource: empty mapping, empty sequence. -/
def initResource {F : Type} (fs : String) : NegotiatedResource F :=
  ⟨fs, [], [], []⟩

/-- Ordered-dict read, `d.get(k)` / `d[k]`: the value at the first (and,
for dicts, only) binding of `k`. -/
def dictGet {A : Type} : List (String × A) → String → Option A
  | [], _ => none
  | p :: t, k => if p.1 = k then some p.2 else dictGet t k

/-- Python `media_type in self.renderers` (dict key membership). -/
def hasMediaType {F : Type} (r : NegotiatedResource F) (media_type : String) : Bool :=
  (dictGet r.renderers media_type).isSome

/-- `NegotiatedResource.compile_page`.  The registry maps a renderer name
to a factory `(fs, raw) ↦ render`, where render functions have the opaque
type `F`.  The result pairs the resource state after the call with the
outcome: on an exception the state is returned unchanged, because every
`raise` in the source precedes the two mutations. -/
def compile_page {F : Type} (reg : String → Option (String → String → F))
    (r : NegotiatedResource F) (page : String) :
    NegotiatedResource F × Except SpecErr (F × String) :=
  let sr := splitFirstNewline page
  let specline := pyStrip sr.1 [PAGE_BREAK, ' ', '\n']
  let raw := sr.2
  match parse_specline reg specline with
  | .error e => (r, .error e)
  | .ok (make_renderer, media_type) =>
    let render := make_renderer r.fs raw
    if hasMediaType r media_type then
      (r, .error (.duplicateMediaType media_type))
    else
      ({ r with
          renderers := r.renderers ++ [(media_type, render)],
          available_types := r.available_types ++ [media_type],
          contentPages := r.contentPages ++ [(render, media_type)] },
       .ok (render, media_type))

/-- Compile the content pages of a source file in declaration order,
stopping at the first exception (compilation of the resource aborts). -/
def compilePages {F : Type} (reg : String → Option (String → String → F))
    (r : NegotiatedResource F) : List String →
      NegotiatedResource F × Option SpecErr
  | [] => (r, none)
  | p :: ps =>
    match compile_page reg r p with
    | (r', .ok _) => compilePages reg r' ps
    | (r', .error e) => (r', some e)

/-! ## Responses and `get_response` -/

/-- The external `Response` object as this core touches it: a body, an
ordered header mapping (only exact-case `Content-Type` /
`Access-Control-Allow-Origin` keys are ever used by this code), and an
optional configured charset. -/
structure Resp where
  body : String
  headers : List (String × String)
  charset : Option String
deriving Repr, DecidableEq

/-- Read a header (`headers.get(k)` / `k in headers`). -/
def lookupHeader (hs : List (String × String)) (k : String) : Option String :=
  dictGet hs k

/-- Write a header (`headers[k] = v`): replace the first binding in place
if present, append otherwise (ordered-mapping insertion). -/
def setHeader : List (String × String) → String → String →
    List (String × String)
  | [], k, v => [(k, v)]
  | p :: t, k, v => if p.1 = k then (k, v) :: t else p :: setHeader t k v

/-- The header block at the end of `get_response`: if the response has no
`Content-Type` yet, set it to the negotiated media type, appending
`; charset=<charset>` when the media type starts with `text/` and the
response's charset is not `None`. -/
def setContentTypeIfAbsent (media_type : String) (resp : Resp) : Resp :=
  if (lookupHeader resp.headers "Content-Type").isSome then resp
  else
    let ct :=
      if media_type.startsWith "text/" then
        match resp.charset with
        | some cs => media_type ++ "; charset=" ++ cs
        | none => media_type
      else media_type
    { resp with headers := setHeader resp.headers "Content-Type" ct }

/-- Exceptional exits of `get_response`: a raised `Response` (the HTTP 406
path), or the Python exceptions the dict/list accesses could raise. -/
inductive GetErr where
  | raised (status : Nat) (body : String) : GetErr
  | keyError : GetErr
  | indexError : GetErr
deriving Repr, DecidableEq

/-- Python truthiness of `request.headers.get('Accept')`: false for a
missing header (`None`) and for the empty string. -/
def acceptTruthy : Option String → Bool
  | some s => !(s == "")
  | none => false

/-- `NegotiatedResource.get_response`.  `bm` is the vendored
`mimeparse.best_match` (external collaborator: returns the best of
`available_types` for the `Accept` value, or `''` when none matches);
`app` applies an opaque render function to the per-request context of
type `C`. -/
def get_response {F C : Type} (app : F → C → String)
    (bm : List String → String → String) (r : NegotiatedResource F)
    (accept : Option String) (ctx : C) (resp : Resp) : Except GetErr Resp :=
  if acceptTruthy accept then
    let acc := accept.getD ""
    let media_type := bm r.available_types acc
    if media_type == "" then
      .error (.raised 406 ("The following media types are available: "
        ++ String.intercalate ", " r.available_types ++ "."))
    else
      match dictGet r.renderers media_type with
      | some render => .ok (setContentTypeIfAbsent media_type
          { resp with body := app render ctx })
      | none => .error .keyError
  else
    match r.contentPages with
    | [] => .error .indexError
    | (render, media_type) :: _ => .ok (setContentTypeIfAbsent media_type
        { resp with body := app render ctx })

/-! ## The JSON resource (`json_resource.py`) -/

/-- The two configured media-type strings of the website object. -/
structure JsonSite where
  media_type_json : String
  media_type_jsonp : String
deriving Repr, DecidableEq

/-- A Python response body as `_process` inspects it: either already a
`basestring`, or some other value of type `V` to be serialized. -/
inductive PyBody (V : Type) where
  | str (s : String) : PyBody V
  | val (v : V) : PyBody V

/-- The body after the serialization step of `_process`: a `basestring`
body is left as is, any other value is passed through `json.dumps`. -/
def bodyTextOf {V : Type} (dumps : V → String) : PyBody V → String
  | .str s => s
  | .val v => dumps v

/-- `JSONResource._process`: serialize a non-string body with
`json.dumps` (the external serializer `dumps`), set `Content-Type` to the
JSON media type, then do the JSONP dance (wrap as `callback(body)` and
switch `Content-Type` when `enable_jsonp` is truthy, a `callback`
querystring parameter exists and `callback_pattern.match` succeeds), then
set the CORS header when `enable_cors` is truthy.  Returns the final
(body, headers). -/
def jsonProcess {V : Type} (dumps : V → String) (site : JsonSite)
    (enable_jsonp enable_cors : Bool) (callback : Option String)
    (body : PyBody V) (headers : List (String × String)) :
    String × List (String × String) :=
  let bodyText := bodyTextOf dumps body
  let headers := setHeader headers "Content-Type" site.media_type_json
  let st :=
    if enable_jsonp then
      match callback with
      | some cb =>
        if callbackMatch cb then
          (cb ++ "(" ++ bodyText ++ ")",
           setHeader headers "Content-Type" site.media_type_jsonp)
        else (bodyText, headers)
      | none => (bodyText, headers)
    else (bodyText, headers)
  let headers := if enable_cors then
      setHeader st.2 "Access-Control-Allow-Origin" "*"
    else st.2
  (st.1, headers)

/-! ## Helper lemmas -/

theorem dictGet_setHeader_same (hs : List (String × String)) (k v : String) :
    dictGet (setHeader hs k v) k = some v := by
  induction hs with
  | nil => simp [setHeader, dictGet]
  | cons p t ih =>
    by_cases h : p.1 = k
    · simp [setHeader, dictGet, h]
    · simp [setHeader, dictGet, h, ih]

theorem dictGet_setHeader_ne (hs : List (String × String)) (k k' v : String)
    (h : k' ≠ k) : dictGet (setHeader hs k' v) k = dictGet hs k := by
  induction hs with
  | nil => simp [setHeader, dictGet, h]
  | cons p t ih =>
    by_cases hp : p.1 = k'
    · subst hp
      simp [setHeader, dictGet, h]
    · simp only [setHeader, if_neg hp]
      by_cases hk : p.1 = k
      · simp [dictGet, hk]
      · simp [dictGet, hk, ih]

theorem dictGet_none_not_mem_keys {A : Type} (l : List (String × A)) (k : String)
    (h : dictGet l k = none) : k ∉ l.map Prod.fst := by
  induction l with
  | nil => simp
  | cons p t ih =>
    by_cases hp : p.1 = k
    · simp [dictGet, hp] at h
    · simp only [dictGet, if_neg hp] at h
      simpa [Ne.symm hp] using ih h

theorem setHeader_append_of_absent (hs : List (String × String)) (k v : String)
    (h : dictGet hs k = none) : setHeader hs k v = hs ++ [(k, v)] := by
  induction hs with
  | nil => rfl
  | cons p t ih =>
    by_cases hp : p.1 = k
    · simp [dictGet, hp] at h
    · simp only [dictGet, if_neg hp] at h
      simp [setHeader, hp, ih h]

/-- The media-type validation step of `_parse_specline`: a token with no
start-anchored match of `media_type_re` raises the malformed-media-type
`SyntaxError`; a token with such a match never produces that error. -/
theorem parseSpeclineParts_mediaType {F : Type} (reg : String → Option F)
    (specline rtok mt : String) :
    (mediaTypeMatch mt = false →
        parseSpeclineParts reg specline rtok mt = .error (.badMediaType mt specline)) ∧
    (mediaTypeMatch mt = true →
        ∀ x y, parseSpeclineParts reg specline rtok mt ≠ .error (.badMediaType x y)) := by
  constructor
  · intro hm
    simp [parseSpeclineParts, hm]
  · intro hm x y
    by_cases hr : rendererMatch rtok = false
    · simp [parseSpeclineParts, hm, hr]
    · cases hreg : reg (rtok.drop 2) with
      | none => simp [parseSpeclineParts, hm, hr, hreg]
      | some f => simp [parseSpeclineParts, hm, hr, hreg]

/-- The renderer validation and hydration steps of `_parse_specline`, for
a media type that passed its check. -/
theorem parseSpeclineParts_renderer {F : Type} (reg : String → Option F)
    (specline rtok mt : String) (hmt : mediaTypeMatch mt = true) :
    (rendererMatch rtok = false →
        parseSpeclineParts reg specline rtok mt = .error (.badRenderer rtok)) ∧
    (rendererMatch rtok = true →
        (reg (rtok.drop 2) = none →
            parseSpeclineParts reg specline rtok mt = .error (.unknownRenderer mt rtok)) ∧
        (∀ f, reg (rtok.drop 2) = some f →
            parseSpeclineParts reg specline rtok mt = .ok (f, mt))) := by
  constructor
  · intro hr
    simp [parseSpeclineParts, hmt, hr]
  · intro hr
    constructor
    · intro hn
      simp [parseSpeclineParts, hmt, hr, hn]
    · intro f hf
      simp [parseSpeclineParts, hmt, hr, hf]

/-- `parseSpeclineParts` never raises the empty-specline or part-count
`SyntaxError`s: those are raised before the parts are assigned. -/
theorem parseSpeclineParts_not_structural {F : Type} (reg : String → Option F)
    (specline rtok mt : String) :
    parseSpeclineParts reg specline rtok mt ≠ .error .emptySpecline ∧
    ∀ u, parseSpeclineParts reg specline rtok mt ≠ .error (.badPartCount u) := by
  constructor
  · by_cases hm : mediaTypeMatch mt = false
    · simp [parseSpeclineParts, hm]
    · by_cases hr : rendererMatch rtok = false
      · simp [parseSpeclineParts, hm, hr]
      · cases hreg : reg (rtok.drop 2) with
        | none => simp [parseSpeclineParts, hm, hr, hreg]
        | some f => simp [parseSpeclineParts, hm, hr, hreg]
  · intro u
    by_cases hm : mediaTypeMatch mt = false
    · simp [parseSpeclineParts, hm]
    · by_cases hr : rendererMatch rtok = false
      · simp [parseSpeclineParts, hm, hr]
      · cases hreg : reg (rtok.drop 2) with
        | none => simp [parseSpeclineParts, hm, hr, hreg]
        | some f => simp [parseSpeclineParts, hm, hr, hreg]

/-- Invariant maintained by page compilation: `available_types` is exactly
the key sequence of `renderers`, and holds no duplicates (the duplicate
check raises before either structure is touched). -/
theorem compilePages_inv {F : Type} (reg : String → Option (String → String → F))
    (ps : List String) (r : NegotiatedResource F)
    (h1 : r.available_types = r.renderers.map Prod.fst)
    (h2 : r.available_types.Nodup) :
    (compilePages reg r ps).1.available_types
        = (compilePages reg r ps).1.renderers.map Prod.fst ∧
    (compilePages reg r ps).1.available_types.Nodup := by
  induction ps generalizing r with
  | nil => exact ⟨h1, h2⟩
  | cons p ps ih =>
    simp only [compilePages, compile_page]
    cases hp : parse_specline reg (pyStrip (splitFirstNewline p).1 [PAGE_BREAK, ' ', '\n']) with
    | error e =>
      simp only [hp]
      exact ⟨h1, h2⟩
    | ok v =>
      obtain ⟨mk, mt⟩ := v
      simp only [hp]
      cases hd : hasMediaType r mt with
      | true =>
        simp only [hd, if_true]
        exact ⟨h1, h2⟩
      | false =>
        simp only [hd, Bool.false_eq_true, if_false]
        refine ih _ ?_ ?_
        · simp [h1]
        · have hnm : mt ∉ r.available_types := by
            rw [h1]
            refine dictGet_none_not_mem_keys _ _ ?_
            simpa [hasMediaType, Option.isSome_iff_exists] using hd
          simp [List.nodup_append, h2, hnm]

/-! ## Claims -/

/-- C1, counterexample.  The claim states that a callback value containing
a character outside `[_A-Za-z0-9]`, such as `foo(bar)`, is left unwrapped.
The code tests the callback with `callback_pattern.match`, which matches
at the start only: `foo(bar)` does not match the pattern in full, yet the
body `x` *is* wrapped as `foo(bar)(x)` and `Content-Type` *is* switched to
the JSONP media type. -/
theorem C1_counterexample :
    specCallbackFullMatch "foo(bar)" = false ∧
    jsonProcess (fun _ : Unit => "") ⟨"application/json", "application/javascript"⟩
        true false (some "foo(bar)") (.str "x") []
      = ("foo(bar)(x)", [("Content-Type", "application/javascript")]) := by
  decide

/-- C1 (amended): with `enable_jsonp` set and a querystring `callback`
present, the body is wrapped as `callback(body)` and `Content-Type`
switched to the JSONP media type exactly when `callback_pattern` matches
at the start of the callback value, i.e. when its first character is in
`[_A-Za-z0-9]` (so in particular whenever it matches in full); a callback
that is empty or starts with a character outside the class is silently
ignored: the body is left unwrapped, `Content-Type` stays the JSON media
type, and no error is raised (`jsonProcess` is total). -/
theorem C1_jsonp_wrap_iff_prefix_match {V : Type} (dumps : V → String)
    (site : JsonSite) (cb : String) (body : PyBody V)
    (hs : List (String × String)) :
    (callbackMatch cb = true →
        (jsonProcess dumps site true false (some cb) body hs).1
            = cb ++ "(" ++ bodyTextOf dumps body ++ ")" ∧
        lookupHeader (jsonProcess dumps site true false (some cb) body hs).2
            "Content-Type" = some site.media_type_jsonp) ∧
    (callbackMatch cb = false →
        (jsonProcess dumps site true false (some cb) body hs).1
            = bodyTextOf dumps body ∧
        lookupHeader (jsonProcess dumps site true false (some cb) body hs).2
            "Content-Type" = some site.media_type_json) := by
  constructor
  · intro h
    refine ⟨by simp [jsonProcess, h], ?_⟩
    simp only [jsonProcess, h, if_true]
    exact dictGet_setHeader_same _ _ _
  · intro h
    refine ⟨by simp [jsonProcess, h], ?_⟩
    simp only [jsonProcess, h, Bool.false_eq_true, if_false]
    exact dictGet_setHeader_same _ _ _

/-- C1, witness for the amended theorem at `callback=foo` and
`callback=(bad`. -/
theorem C1_jsonp_wrap_iff_prefix_match_witness :
    ((jsonProcess (fun _ : Unit => "") ⟨"application/json", "application/javascript"⟩
        true false (some "foo") (.str "x") []).1
          = "foo" ++ "(" ++ bodyTextOf (fun _ : Unit => "") (.str "x") ++ ")" ∧
      lookupHeader (jsonProcess (fun _ : Unit => "")
          ⟨"application/json", "application/javascript"⟩
          true false (some "foo") (.str "x") []).2 "Content-Type"
        = some "application/javascript") ∧
    ((jsonProcess (fun _ : Unit => "") ⟨"application/json", "application/javascript"⟩
        true false (some "(bad") (.str "x") []).1
          = bodyTextOf (fun _ : Unit => "") (.str "x") ∧
      lookupHeader (jsonProcess (fun _ : Unit => "")
          ⟨"application/json", "application/javascript"⟩
          true false (some "(bad") (.str "x") []).2 "Content-Type"
        = some "application/json") :=
  ⟨(C1_jsonp_wrap_iff_prefix_match (fun _ : Unit => "")
      ⟨"application/json", "application/javascript"⟩ "foo" (.str "x") []).1 (by decide),
   (C1_jsonp_wrap_iff_prefix_match (fun _ : Unit => "")
      ⟨"application/json", "application/javascript"⟩ "(bad" (.str "x") []).2 (by decide)⟩

/-- C9: `_process` serializes a non-text body to JSON text with `dumps`
and passes a text body through unserialized, and in both cases sets the
`Content-Type` header to the configured JSON media type (here stated away
from the JSONP path, which C1 covers; the CORS flag does not disturb
either fact). -/
theorem C9_json_serialization {V : Type} (dumps : V → String) (site : JsonSite)
    (enable_cors : Bool) (callback : Option String) (body : PyBody V)
    (hs : List (String × String)) :
    (jsonProcess dumps site false enable_cors callback body hs).1
        = bodyTextOf dumps body ∧
    lookupHeader (jsonProcess dumps site false enable_cors callback body hs).2
        "Content-Type" = some site.media_type_json ∧
    (∀ v, body = .val v →
        (jsonProcess dumps site false enable_cors callback body hs).1 = dumps v) ∧
    (∀ s, body = .str s →
        (jsonProcess dumps site false enable_cors callback body hs).1 = s) := by
  have hct : lookupHeader (jsonProcess dumps site false enable_cors callback body hs).2
      "Content-Type" = some site.media_type_json := by
    cases enable_cors with
    | false =>
      simp only [jsonProcess, Bool.false_eq_true, if_false]
      exact dictGet_setHeader_same _ _ _
    | true =>
      simp only [jsonProcess, if_true]
      rw [show lookupHeader = dictGet from rfl,
        dictGet_setHeader_ne _ _ _ _ (by decide)]
      exact dictGet_setHeader_same _ _ _
  refine ⟨?_, hct, ?_, ?_⟩
  · cases enable_cors <;> simp [jsonProcess]
  · intro v hv
    subst hv
    cases enable_cors <;> simp [jsonProcess, bodyTextOf]
  · intro s hsv
    subst hsv
    cases enable_cors <;> simp [jsonProcess, bodyTextOf]

/-- C9, witness: a non-text body (serialized by `dumps` to `null`) and a
text body, with CORS enabled. -/
theorem C9_json_serialization_witness :
    (jsonProcess (fun _ : Unit => "null") ⟨"application/json", "application/javascript"⟩
        false true none (.val ()) []).1 = "null" ∧
    (jsonProcess (fun _ : Unit => "null") ⟨"application/json", "application/javascript"⟩
        false true none (.str "txt") []).1 = "txt" :=
  ⟨(C9_json_serialization (fun _ : Unit => "null")
      ⟨"application/json", "application/javascript"⟩ true none (.val ()) []).2.2.1 () rfl,
   (C9_json_serialization (fun _ : Unit => "null")
      ⟨"application/json", "application/javascript"⟩ true none (.str "txt") []).2.2.2 "txt" rfl⟩

/-- C2, counterexample.  The claim states that a media-type token not
matching `^[A-Za-z0-9.+-]+/[A-Za-z0-9.+-]+$` in full makes
`_parse_specline` raise a `SyntaxError`.  The code uses
`media_type_re.match`, which only anchors at the start: the token
`text/html;v` does not match the pattern in full, yet the specline parses
successfully (with the default renderer looked up as `tornado`). -/
theorem C2_counterexample :
    specMediaTypeFullMatch "text/html;v" = false ∧
    parse_specline (fun n => if n = "tornado" then some true else none)
        "text/html;v" = .ok (true, "text/html;v") :=
  ⟨by decide, by rfl⟩

/-- C2 (amended): for every specline whose media-type token has no
start-anchored (`re.match`) occurrence of `[A-Za-z0-9.+-]+/[A-Za-z0-9.+-]+`,
`_parse_specline` raises a `SyntaxError` whose message contains the
offending media-type string and the pattern; a token with such a
start-anchored match (in particular every full match) passes the
media-type check and never produces that error. -/
theorem C2_mediatype_prefix_check {F : Type} (reg : String → Option F)
    (s mt : String)
    (h : pySplit s = [mt] ∨ ∃ rtok, pySplit s = [rtok, mt]) :
    (mediaTypeMatch mt = false →
        parse_specline reg s = .error (.badMediaType mt s) ∧
        (SpecErr.badMediaType mt s).isSyntaxError = true ∧
        (∃ l r, (SpecErr.badMediaType mt s).message.data = l ++ mt.data ++ r) ∧
        (∃ l r, (SpecErr.badMediaType mt s).message.data
            = l ++ mediaTypePattern.data ++ r)) ∧
    (mediaTypeMatch mt = true →
        ∀ x y, parse_specline reg s ≠ .error (.badMediaType x y)) := by
  have hs : s ≠ "" := by
    rintro rfl
    have he : pySplit "" = [] := rfl
    rcases h with h | ⟨rtok, h⟩ <;> rw [he] at h <;> cases h
  have hred : ∀ rtok, pySplit s = [rtok, mt] ∨ (pySplit s = [mt] ∧ rtok = "#!tornado") →
      parse_specline reg s = parseSpeclineParts reg s rtok mt := by
    intro rtok hm
    rcases hm with hm | ⟨hm, rfl⟩ <;> simp [parse_specline, hs, hm]
  constructor
  · intro hmt
    have hmsg1 : ∃ l r, (SpecErr.badMediaType mt s).message.data
        = l ++ mt.data ++ r := by
      refine ⟨("Malformed media type ").data,
        (" in specline " ++ s ++ ". It must match "
          ++ mediaTypePattern ++ ".").data, ?_⟩
      simp [SpecErr.message, String.data_append]
    have hmsg2 : ∃ l r, (SpecErr.badMediaType mt s).message.data
        = l ++ mediaTypePattern.data ++ r := by
      refine ⟨("Malformed media type " ++ mt ++ " in specline " ++ s
          ++ ". It must match ").data, (".").data, ?_⟩
      simp [SpecErr.message, String.data_append]
    rcases h with h | ⟨rtok, h⟩
    · rw [hred "#!tornado" (Or.inr ⟨h, rfl⟩)]
      exact ⟨(parseSpeclineParts_mediaType reg s "#!tornado" mt).1 hmt, rfl,
        hmsg1, hmsg2⟩
    · rw [hred rtok (Or.inl h)]
      exact ⟨(parseSpeclineParts_mediaType reg s rtok mt).1 hmt, rfl,
        hmsg1, hmsg2⟩
  · intro hmt x y
    rcases h with h | ⟨rtok, h⟩
    · rw [hred "#!tornado" (Or.inr ⟨h, rfl⟩)]
      exact (parseSpeclineParts_mediaType reg s "#!tornado" mt).2 hmt x y
    · rw [hred rtok (Or.inl h)]
      exact (parseSpeclineParts_mediaType reg s rtok mt).2 hmt x y

/-- C2, witness: the malformed token `noslash` (no `/` at all) is rejected
with the malformed-media-type error, and `text/html` passes the check. -/
theorem C2_mediatype_prefix_check_witness :
    (parse_specline (fun _ : String => (none : Option Bool)) "noslash"
        = .error (.badMediaType "noslash" "noslash") ∧
      (SpecErr.badMediaType "noslash" "noslash").isSyntaxError = true ∧
      (∃ l r, (SpecErr.badMediaType "noslash" "noslash").message.data
          = l ++ ("noslash").data ++ r) ∧
      (∃ l r, (SpecErr.badMediaType "noslash" "noslash").message.data
          = l ++ mediaTypePattern.data ++ r)) ∧
    (∀ x y, parse_specline (fun _ : String => (none : Option Bool)) "text/html"
        ≠ .error (.badMediaType x y)) :=
  ⟨(C2_mediatype_prefix_check (fun _ : String => (none : Option Bool))
      "noslash" "noslash" (Or.inl rfl)).1 (by decide),
   (C2_mediatype_prefix_check (fun _ : String => (none : Option Bool))
      "text/html" "text/html" (Or.inl rfl)).2 (by decide)⟩

/-- C3, counterexample.  The claim states that a first token not matching
`^#![a-z0-9.-]+$` in full makes parsing fail with a `SyntaxError`.  The
code uses `renderer_re.match`, which only anchors at the start: `#!foo%`
does not match in full, yet with a registry holding the name `foo%` the
specline `#!foo% a/b` parses successfully (the name looked up is the
token minus its first two characters, trailing garbage included). -/
theorem C3_counterexample :
    specRendererFullMatch "#!foo%" = false ∧
    parse_specline (fun n => if n = "foo%" then some true else none)
        "#!foo% a/b" = .ok (true, "a/b") :=
  ⟨by decide, by rfl⟩

/-- C3 (amended): for every two-token specline whose media type passes its
check, if the first token has no start-anchored (`re.match`) occurrence of
`#![a-z0-9.-]+`, parsing fails with the malformed-renderer `SyntaxError`;
if it has one, its leading two characters (`#!`) are stripped and the rest
of the token is looked up in the renderer registry, an unknown name
failing with a `ValueError` whose message names both the media type and
the renderer token. -/
theorem C3_renderer_check {F : Type} (reg : String → Option F)
    (s rtok mt : String) (h : pySplit s = [rtok, mt])
    (hmt : mediaTypeMatch mt = true) :
    (rendererMatch rtok = false →
        parse_specline reg s = .error (.badRenderer rtok) ∧
        (SpecErr.badRenderer rtok).isSyntaxError = true) ∧
    (rendererMatch rtok = true →
        (reg (rtok.drop 2) = none →
            parse_specline reg s = .error (.unknownRenderer mt rtok) ∧
            (SpecErr.unknownRenderer mt rtok).isSyntaxError = false ∧
            (SpecErr.unknownRenderer mt rtok).message
              = "Unknown renderer for " ++ mt ++ ": " ++ rtok ++ ".") ∧
        (∀ f, reg (rtok.drop 2) = some f →
            parse_specline reg s = .ok (f, mt))) := by
  have hs : s ≠ "" := by
    rintro rfl
    have he : pySplit "" = [] := rfl
    rw [he] at h
    cases h
  have hred : parse_specline reg s = parseSpeclineParts reg s rtok mt := by
    simp [parse_specline, hs, h]
  rw [hred]
  have hr := parseSpeclineParts_renderer reg s rtok mt hmt
  exact ⟨fun h1 => ⟨hr.1 h1, rfl⟩,
    fun h1 => ⟨fun h2 => ⟨(hr.2 h1).1 h2, rfl, rfl⟩, (hr.2 h1).2⟩⟩

/-- C3, witness: `!#nope nope` fails the renderer check; `#!found x/y` is
found in the registry and `#!missing x/y` is not. -/
theorem C3_renderer_check_witness :
    (parse_specline (fun _ : String => (none : Option Bool)) "!#nope x/y"
        = .error (.badRenderer "!#nope") ∧
      (SpecErr.badRenderer "!#nope").isSyntaxError = true) ∧
    (parse_specline (fun n => if n = "found" then some true else none)
        "#!found x/y" = .ok (true, "x/y")) ∧
    (parse_specline (fun _ : String => (none : Option Bool)) "#!missing x/y"
        = .error (.unknownRenderer "x/y" "#!missing") ∧
      (SpecErr.unknownRenderer "x/y" "#!missing").isSyntaxError = false ∧
      (SpecErr.unknownRenderer "x/y" "#!missing").message
        = "Unknown renderer for " ++ "x/y" ++ ": " ++ "#!missing" ++ ".") :=
  ⟨(C3_renderer_check (fun _ : String => (none : Option Bool)) "!#nope x/y"
        "!#nope" "x/y" rfl (by decide)).1 (by decide),
   ((C3_renderer_check (fun n => if n = "found" then some true else none)
        "#!found x/y" "#!found" "x/y" rfl (by decide)).2 (by decide)).2
      true (by decide),
   ((C3_renderer_check (fun _ : String => (none : Option Bool)) "#!missing x/y"
        "#!missing" "x/y" rfl (by decide)).2 (by decide)).1 rfl⟩

/-- C8: an empty specline raises the empty-specline `SyntaxError`, a
specline splitting into more than two whitespace-separated tokens raises
the part-count `SyntaxError`, and a specline with exactly one or two
tokens never produces either structural error. -/
theorem C8_token_count {F : Type} (reg : String → Option F) (s : String) :
    (s = "" → parse_specline reg s = .error .emptySpecline ∧
        SpecErr.emptySpecline.isSyntaxError = true) ∧
    (∀ t1 t2 t3 ts, pySplit s = t1 :: t2 :: t3 :: ts →
        parse_specline reg s = .error (.badPartCount s) ∧
        (SpecErr.badPartCount s).isSyntaxError = true) ∧
    ((∃ t, pySplit s = [t]) ∨ (∃ t1 t2, pySplit s = [t1, t2]) →
        parse_specline reg s ≠ .error .emptySpecline ∧
        ∀ u, parse_specline reg s ≠ .error (.badPartCount u)) := by
  refine ⟨fun he => ⟨by simp [parse_specline, he], rfl⟩, ?_, ?_⟩
  · intro t1 t2 t3 ts hsp
    have hs : s ≠ "" := by
      rintro rfl
      have he : pySplit "" = [] := rfl
      rw [he] at hsp
      cases hsp
    exact ⟨by simp [parse_specline, hs, hsp], rfl⟩
  · intro h
    have hs : s ≠ "" := by
      rintro rfl
      have he : pySplit "" = [] := rfl
      rcases h with ⟨t, h⟩ | ⟨t1, t2, h⟩ <;> rw [he] at h <;> cases h
    rcases h with ⟨t, h⟩ | ⟨t1, t2, h⟩
    · have hred : parse_specline reg s = parseSpeclineParts reg s "#!tornado" t := by
        simp [parse_specline, hs, h]
      rw [hred]
      exact parseSpeclineParts_not_structural reg s "#!tornado" t
    · have hred : parse_specline reg s = parseSpeclineParts reg s t1 t2 := by
        simp [parse_specline, hs, h]
      rw [hred]
      exact parseSpeclineParts_not_structural reg s t1 t2

/-- C8, witness: the empty specline, a three-token specline, and the
one- and two-token speclines of the other witnesses. -/
theorem C8_token_count_witness :
    (parse_specline (fun _ : String => (none : Option Bool)) ""
        = .error .emptySpecline ∧
      SpecErr.emptySpecline.isSyntaxError = true) ∧
    (parse_specline (fun _ : String => (none : Option Bool)) "a b c"
        = .error (.badPartCount "a b c") ∧
      (SpecErr.badPartCount "a b c").isSyntaxError = true) ∧
    (parse_specline (fun _ : String => (none : Option Bool)) "x/y"
        ≠ .error .emptySpecline ∧
      ∀ u, parse_specline (fun _ : String => (none : Option Bool)) "x/y"
        ≠ .error (.badPartCount u)) :=
  ⟨(C8_token_count (fun _ : String => (none : Option Bool)) "").1 rfl,
   (C8_token_count (fun _ : String => (none : Option Bool)) "a b c").2.1
      "a" "b" "c" [] rfl,
   (C8_token_count (fun _ : String => (none : Option Bool)) "x/y").2.2
      (Or.inl ⟨"x/y", rfl⟩)⟩

/-! Concrete material for witnesses: a registry holding the default
`tornado` renderer (factory returning, as opaque render value, the raw
template text) and a two-content-page source file. -/

def demoReg : String → Option (String → String → String) :=
  fun n => if n = "tornado" then some (fun _ raw => raw) else none

def demoPages : List String :=
  ["text/plain" ++ "\n" ++ "hello", "text/json" ++ "\n" ++ "bye"]

def demoRes : NegotiatedResource String :=
  (compilePages demoReg (initResource "fs") demoPages).1

/-- Render-function application for the witnesses: the opaque render
value is a `String` returned as the body, ignoring the context. -/
def demoApp : String → Unit → String := fun f _ => f

/-- Shared reduction: with no truthy `Accept` value, `get_response` takes
the default branch and uses the head of the content-page list. -/
theorem get_response_no_accept {F C : Type} (app : F → C → String)
    (bm : List String → String → String) (r : NegotiatedResource F)
    (render : F) (mt : String) (rest : List (F × String))
    (h : r.contentPages = (render, mt) :: rest) (ctx : C) (resp : Resp) :
    get_response app bm r none ctx resp
      = .ok (setContentTypeIfAbsent mt { resp with body := app render ctx }) := by
  simp [get_response, acceptTruthy, h]

/-- C4: for every resource compiled from its pages, a request whose
`Accept` header is present (truthy) but matches none of the available
media types (`best_match` returns the empty string) makes `get_response`
raise — not return — an HTTP 406 response whose body lists the available
media types, comma-separated; `available_types` holds every declared type
exactly once, in declaration order (it is duplicate-free and is exactly
the key sequence of the renderer mapping, which `compile_page` extends in
declaration order). -/
theorem C4_not_acceptable_406 {F C : Type} (app : F → C → String)
    (reg : String → Option (String → String → F)) (fs : String)
    (pages : List String) (r : NegotiatedResource F)
    (hc : compilePages reg (initResource fs) pages = (r, none))
    (bm : List String → String → String) (accept : String) (ha : ¬accept = "")
    (hn : bm r.available_types accept = "") (ctx : C) (resp : Resp) :
    get_response app bm r (some accept) ctx resp
      = .error (.raised 406 ("The following media types are available: "
          ++ String.intercalate ", " r.available_types ++ ".")) ∧
    r.available_types.Nodup ∧
    r.available_types = r.renderers.map Prod.fst := by
  have hinv := compilePages_inv reg pages (initResource fs) rfl
    (by simp [initResource])
  rw [hc] at hinv
  refine ⟨?_, hinv.2, hinv.1⟩
  have hb : (accept == "") = false := by
    simp [ha]
  simp [get_response, acceptTruthy, hb, hn]

/-- C4, witness: the demo resource offers `text/plain` and `text/json`;
an `Accept` the negotiator cannot satisfy yields the 406 with both types
listed once, in declaration order. -/
theorem C4_not_acceptable_406_witness :
    get_response demoApp (fun _ _ => "") demoRes (some "application/xml") ()
        ⟨"", [], none⟩
      = .error (.raised 406 ("The following media types are available: "
          ++ String.intercalate ", " demoRes.available_types ++ ".")) ∧
    demoRes.available_types.Nodup ∧
    demoRes.available_types = demoRes.renderers.map Prod.fst :=
  C4_not_acceptable_406 demoApp demoReg "fs" demoPages demoRes rfl
    (fun _ _ => "") "application/xml" (by decide) rfl () ⟨"", [], none⟩

/-- C5: when the request carries no `Accept` header, `get_response` never
negotiates: whatever `best_match` would say (it is universally
quantified and unused), the first content page — `self.pages[2]`, the
head of the declaration-ordered content-page list — supplies both the
render function and the media type of the response. -/
theorem C5_default_first_page {F C : Type} (app : F → C → String)
    (bm : List String → String → String) (r : NegotiatedResource F)
    (render : F) (mt : String) (rest : List (F × String))
    (h : r.contentPages = (render, mt) :: rest) (ctx : C) (resp : Resp) :
    get_response app bm r none ctx resp
      = .ok (setContentTypeIfAbsent mt { resp with body := app render ctx }) :=
  get_response_no_accept app bm r render mt rest h ctx resp

/-- C5, witness: with no `Accept` header the demo resource renders its
first content page (`text/plain`, body `hello`) even though `best_match`
is rigged to answer `text/json`. -/
theorem C5_default_first_page_witness :
    get_response demoApp (fun _ _ => "text/json") demoRes none () ⟨"", [], none⟩
      = .ok (setContentTypeIfAbsent "text/plain"
          { Resp.mk "" [] none with body := demoApp "hello" () }) :=
  C5_default_first_page demoApp (fun _ _ => "text/json") demoRes "hello"
    "text/plain" [("bye", "text/json")] rfl () ⟨"", [], none⟩

/-- C6: compiling a content page whose (parsed) media type equals the
media type of an already-compiled content page of the same resource
raises the duplicate `SyntaxError`, and the resource state — renderer
mapping, available-types sequence and page list alike — is returned
unchanged by the failed call (the `raise` precedes both mutations). -/
theorem C6_duplicate_media_type {F : Type}
    (reg : String → Option (String → String → F)) (r : NegotiatedResource F)
    (page : String) (f : String → String → F) (mt : String)
    (hp : parse_specline reg
        (pyStrip (splitFirstNewline page).1 [PAGE_BREAK, ' ', '\n'])
      = .ok (f, mt))
    (hd : hasMediaType r mt = true) :
    compile_page reg r page = (r, .error (.duplicateMediaType mt)) ∧
    (SpecErr.duplicateMediaType mt).message
      = "Two content pages defined for " ++ mt ++ "." := by
  refine ⟨?_, rfl⟩
  simp [compile_page, hp, hd]

/-- C6, witness: recompiling a second `text/plain` page against the demo
resource fails with the duplicate error and leaves the resource as it
was. -/
theorem C6_duplicate_media_type_witness :
    compile_page demoReg demoRes ("text/plain" ++ "\n" ++ "again")
      = (demoRes, .error (.duplicateMediaType "text/plain")) ∧
    (SpecErr.duplicateMediaType "text/plain").message
      = "Two content pages defined for " ++ "text/plain" ++ "." :=
  C6_duplicate_media_type demoReg demoRes ("text/plain" ++ "\n" ++ "again")
    (fun _ raw => raw) "text/plain" rfl rfl

/-- C7: on every successful `get_response` — by negotiation or by the
no-`Accept` default — if the response already has a `Content-Type`
header its headers are left entirely unchanged; otherwise `Content-Type`
is appended, set to the used media type, with `; charset=<charset>`
appended exactly when the media type starts with `text/` and the
response's charset is configured (not `None`). -/
theorem C7_content_type_header {F C : Type} (app : F → C → String)
    (bm : List String → String → String) (r : NegotiatedResource F)
    (render : F) (mt : String) (ctx : C) (resp : Resp)
    (accept : Option String)
    (hbranch : (accept = none ∧ ∃ rest, r.contentPages = (render, mt) :: rest) ∨
      (∃ a, accept = some a ∧ a ≠ "" ∧ bm r.available_types a = mt ∧ mt ≠ ""
        ∧ dictGet r.renderers mt = some render)) :
    get_response app bm r accept ctx resp
      = .ok ⟨app render ctx,
          (if (lookupHeader resp.headers "Content-Type").isSome then
            resp.headers
          else resp.headers ++ [("Content-Type",
            if mt.startsWith "text/" then
              match resp.charset with
              | some cs => mt ++ "; charset=" ++ cs
              | none => mt
            else mt)]),
          resp.charset⟩ := by
  have hfin : setContentTypeIfAbsent mt { resp with body := app render ctx }
      = ⟨app render ctx,
          (if (lookupHeader resp.headers "Content-Type").isSome then
            resp.headers
          else resp.headers ++ [("Content-Type",
            if mt.startsWith "text/" then
              match resp.charset with
              | some cs => mt ++ "; charset=" ++ cs
              | none => mt
            else mt)]),
          resp.charset⟩ := by
    by_cases hct : (lookupHeader resp.headers "Content-Type").isSome
    · simp [setContentTypeIfAbsent, hct]
    · have hnone : dictGet resp.headers "Content-Type" = none := by
        rcases hn : dictGet resp.headers "Content-Type" with _ | v
        · rfl
        · rw [show lookupHeader = dictGet from rfl, hn] at hct
          simp at hct
      simp [setContentTypeIfAbsent, hct,
        setHeader_append_of_absent _ _ _ hnone]
  rcases hbranch with ⟨rfl, rest, hcp⟩ | ⟨a, rfl, ha, hbm, hne, hdg⟩
  · rw [get_response_no_accept app bm r render mt rest hcp ctx resp, hfin]
  · have hb : (a == "") = false := by simp [ha]
    have hbne : (mt == "") = false := by simp [hne]
    simp only [get_response, acceptTruthy, hb, Bool.not_false, if_true,
      Option.getD_some, hbm, hbne, Bool.false_eq_true, if_false, hdg, hfin]

/-- C7, witness: negotiating `text/plain` against the demo resource with
no prior `Content-Type` and charset `UTF-8` appends
`Content-Type: text/plain; charset=UTF-8`; a response that already has a
`Content-Type` keeps its headers untouched (second instance, via the
default branch with charset configured but header present). -/
theorem C7_content_type_header_witness :
    get_response demoApp (fun _ _ => "text/plain") demoRes
        (some "text/plain") () ⟨"", [], some "UTF-8"⟩
      = .ok ⟨demoApp "hello" (),
          (if (lookupHeader ([] : List (String × String)) "Content-Type").isSome
            then ([] : List (String × String))
          else [] ++ [("Content-Type",
            if ("text/plain").startsWith "text/" then
              match (some "UTF-8" : Option String) with
              | some cs => "text/plain" ++ "; charset=" ++ cs
              | none => "text/plain"
            else "text/plain")]),
          some "UTF-8"⟩ ∧
    get_response demoApp (fun _ _ => "") demoRes none ()
        ⟨"", [("Content-Type", "application/pdf")], some "UTF-8"⟩
      = .ok ⟨demoApp "hello" (),
          (if (lookupHeader [("Content-Type", "application/pdf")]
              "Content-Type").isSome
            then [("Content-Type", "application/pdf")]
          else [("Content-Type", "application/pdf")] ++ [("Content-Type",
            if ("text/plain").startsWith "text/" then
              match (some "UTF-8" : Option String) with
              | some cs => "text/plain" ++ "; charset=" ++ cs
              | none => "text/plain"
            else "text/plain")]),
          some "UTF-8"⟩ :=
  ⟨C7_content_type_header demoApp (fun _ _ => "text/plain") demoRes "hello"
      "text/plain" () ⟨"", [], some "UTF-8"⟩ (some "text/plain")
      (Or.inr ⟨"text/plain", rfl, by decide, rfl, by decide, rfl⟩),
   C7_content_type_header demoApp (fun _ _ => "") demoRes "hello"
      "text/plain" () ⟨"", [("Content-Type", "application/pdf")], some "UTF-8"⟩
      none (Or.inl ⟨rfl, ⟨[("bye", "text/json")], rfl⟩⟩)⟩

/-- C10: a present-but-empty `Accept` header is falsy in the `if accept:`
test, so `get_response` behaves exactly as if the header were absent — it
takes the default-first-content-page branch — and the 406 response is
never raised on that path. -/
theorem C10_empty_accept_like_absent {F C : Type} (app : F → C → String)
    (bm : List String → String → String) (r : NegotiatedResource F)
    (ctx : C) (resp : Resp) :
    get_response app bm r (some "") ctx resp
        = get_response app bm r none ctx resp ∧
    ∀ b, get_response app bm r (some "") ctx resp
        ≠ .error (.raised 406 b) := by
  refine ⟨rfl, ?_⟩
  intro b
  cases hcp : r.contentPages with
  | nil => simp [get_response, acceptTruthy, hcp]
  | cons p rest =>
    obtain ⟨render, mt⟩ := p
    simp [get_response, acceptTruthy, hcp]

/-- C10, witness: the demo resource with `Accept:` (empty value) behaves
exactly like the demo resource with no `Accept` header at all. -/
theorem C10_empty_accept_like_absent_witness :
    get_response demoApp (fun _ _ => "") demoRes (some "") () ⟨"", [], none⟩
        = get_response demoApp (fun _ _ => "") demoRes none () ⟨"", [], none⟩ ∧
    ∀ b, get_response demoApp (fun _ _ => "") demoRes (some "") () ⟨"", [], none⟩
        ≠ .error (.raised 406 b) :=
  C10_empty_accept_like_absent demoApp (fun _ _ => "") demoRes () ⟨"", [], none⟩

end Aspen
